import Mathlib

/-!
Shallow embedding of the multi-agent BDD orchestration core
(`src/multi_agent/models.py`, `src/multi_agent/agents.py`,
`src/multi_agent/orchestrator.py`) together with proofs of the
specification's testable properties.

Python strings are modelled as Lean `String`s; the string helpers below
(`pyStrip`, `pyLower`, `pySplitLines`, ...) reimplement the exact Python
primitives used by the source (`str.strip`, `str.lower`, `str.split('\n')`,
`str.startswith`, substring membership, slicing) by structural recursion
over character lists so every definition is executable and reducible.
Python dicts keyed by `AgentRole` are modelled as association lists with
Python's insertion-order semantics (`dictInsert` updates an existing key in
place and appends a fresh key at the end; `dictGet` looks up by key).
-/

namespace BddAgent

/-- `AgentRole` from `models.py`: the closed set of worker identities. -/
inductive AgentRole : Type where
  | PM
  | PO
  | TECH_LEAD
  | QA
  deriving DecidableEq, Repr

/-- `AgentRole.value` strings from `models.py`. -/
def roleValue : AgentRole → String
  | .PM => "product_manager"
  | .PO => "product_owner"
  | .TECH_LEAD => "tech_lead"
  | .QA => "quality_assurance"

/-- `AgentInput` from `models.py`; the `context` dict entries set by the
orchestrator (`round`, `total_rounds`, `max_scenarios_per_agent`,
`include_negative`, `include_edge_cases`) are modelled as named fields. -/
structure AgentInput where
  user_story : String
  round : Nat
  total_rounds : Nat
  max_scenarios_per_agent : Nat
  include_negative : Bool
  include_edge_cases : Bool
  previous_scenarios : List String
  deriving DecidableEq, Repr

/-- `AgentOutput` from `models.py`. -/
structure AgentOutput where
  agent_role : AgentRole
  scenarios : List String
  insights : List String
  concerns : List String
  suggestions : List String
  deriving DecidableEq, Repr

/-- `CollaborationConfig` from `models.py`. -/
structure CollaborationConfig where
  enabled_agents : List AgentRole
  collaboration_rounds : Nat
  max_scenarios_per_agent : Nat
  include_cross_validation : Bool
  include_negative : Bool
  include_edge_cases : Bool
  deriving DecidableEq, Repr

/-! ### Python string primitives -/

/-- The characters Python's `str.strip()` removes (ASCII whitespace). -/
def isPySpace (c : Char) : Bool :=
  c = ' ' || c = '\t' || c = '\n' || c = '\r' || c = '\x0b' || c = '\x0c'

/-- `str.strip()` on a character list. -/
def pyStripList (l : List Char) : List Char :=
  ((l.dropWhile isPySpace).reverse.dropWhile isPySpace).reverse

/-- Python `s.strip()`. -/
def pyStrip (s : String) : String :=
  String.mk (pyStripList s.toList)

/-- Python `s.lower()` (ASCII case folding, which covers every cased
character compared by the source). -/
def pyLower (s : String) : String :=
  String.mk (s.toList.map Char.toLower)

/-- Split a character list at every occurrence of `sep`
(Python `s.split(sep)` semantics: always at least one piece). -/
def splitOnChar (sep : Char) : List Char → List (List Char)
  | [] => [[]]
  | c :: rest =>
    let r := splitOnChar sep rest
    if c = sep then [] :: r
    else
      match r with
      | [] => [[c]]
      | h :: t => (c :: h) :: t

/-- Python `s.split('\n')`. -/
def pySplitLines (s : String) : List String :=
  (splitOnChar '\n' s.toList).map String.mk

/-- Whether `p` is an initial segment of `l`. -/
def listStartsWith : List Char → List Char → Bool
  | _, [] => true
  | [], _ :: _ => false
  | a :: as, b :: bs => a = b && listStartsWith as bs

/-- Python `s.startswith(p)`. -/
def pyStartsWith (s p : String) : Bool :=
  listStartsWith s.toList p.toList

/-- Python `s.startswith((p₁, p₂, ...))`. -/
def startsWithAny (s : String) (ps : List String) : Bool :=
  ps.any (fun p => pyStartsWith s p)

/-- Whether `sub` occurs contiguously inside `l`. -/
def listContainsSub : List Char → List Char → Bool
  | [], sub => sub.isEmpty
  | l@(_ :: rest), sub => listStartsWith l sub || listContainsSub rest sub

/-- Python `sub in s`. -/
def pyContains (s sub : String) : Bool :=
  listContainsSub s.toList sub.toList

/-- Python `s[n:]` (codepoint slicing). -/
def strDrop (n : Nat) (s : String) : String :=
  String.mk (s.toList.drop n)

/-- Python `s[:n]` (codepoint slicing). -/
def strTake (n : Nat) (s : String) : String :=
  String.mk (s.toList.take n)

/-- Python `'\n'.join(lines)`. -/
def strJoinNL : List String → String
  | [] => ""
  | [s] => s
  | s :: rest => s ++ "\n" ++ strJoinNL rest

/-! ### Association-list model of Python dicts keyed by `AgentRole` -/

/-- The per-role output map (`agent_outputs` in the orchestrator), as an
insertion-ordered association list. -/
abbrev OutMap := List (AgentRole × AgentOutput)

/-- Python `d[k]` lookup (as an option). -/
def dictGet : OutMap → AgentRole → Option AgentOutput
  | [], _ => none
  | (k, v) :: rest, role => if k = role then some v else dictGet rest role

/-- Python `d[k] = v`: update an existing key in place, append a new key. -/
def dictInsert : OutMap → AgentRole → AgentOutput → OutMap
  | [], k, v => [(k, v)]
  | (k', v') :: rest, k, v =>
    if k' = k then (k, v) :: rest else (k', v') :: dictInsert rest k v

/-! ### Consolidation (`_consolidate_scenarios`, orchestrator.py 183-209) -/

/-- The dedup key from orchestrator.py line 204:
`scenario.lower().replace(' ', '')`.  Only space characters (U+0020) are
removed; other whitespace (tabs, newlines) is kept.  The Python code stores
`hash` of this string in a set; set membership is modelled by the
normalized string itself. -/
def normKey (s : String) : String :=
  String.mk ((pyLower s).toList.filter (fun c => c ≠ ' '))

/-- The fixed priority order from orchestrator.py lines 197-198. -/
def priority_order : List AgentRole :=
  [AgentRole.PO, AgentRole.QA, AgentRole.PM, AgentRole.TECH_LEAD]

/-- The single pass of orchestrator.py lines 200-207 over a stream of
scenarios with the running `seen_scenarios` set: keep a scenario exactly
when its `normKey` has not been seen. -/
def dedupeScenarios (seen : List String) : List String → List String
  | [] => []
  | s :: rest =>
    if normKey s ∈ seen then dedupeScenarios seen rest
    else s :: dedupeScenarios (normKey s :: seen) rest

/-- The scenarios contributed by `role` to consolidation
(`agent_outputs[role].scenarios` when present, nothing otherwise). -/
def roleScenarios (agent_outputs : OutMap) (role : AgentRole) : List String :=
  match dictGet agent_outputs role with
  | some out => out.scenarios
  | none => []

/-- The scenarios consolidation visits, flattened in the fixed priority
order (the nested loop of orchestrator.py 200-202). -/
def consolidationStream (agent_outputs : OutMap) : List String :=
  priority_order.flatMap (roleScenarios agent_outputs)

/-- `_consolidate_scenarios` (orchestrator.py 183-209): iterate the roles in
`priority_order`, then each present role's scenarios in original order,
keeping first occurrences of each `normKey`. -/
def _consolidate_scenarios (agent_outputs : OutMap) : List String :=
  dedupeScenarios [] (consolidationStream agent_outputs)

/-! ### Worker response parsing (`agents.py` 143-233) -/

/-- The value of `current_section` in `_parse_response`. -/
inductive ParseSection : Type where
  | noSection
  | scenario
  | insights
  | concerns
  | suggestions
  deriving DecidableEq, Repr

/-- The loop state of `_parse_response`: the four output lists, the
section marker and the lines of the scenario being collected. -/
structure ParseState where
  scenarios : List String
  insights : List String
  concerns : List String
  suggestions : List String
  current_section : ParseSection
  current_scenario : List String
  deriving DecidableEq, Repr

/-- One iteration of the `for line in lines` loop of `_parse_response`
(agents.py 162-190), faithful to the `if`/`elif` chain. -/
def parseLine (st : ParseState) (rawLine : String) : ParseState :=
  let line := pyStrip rawLine
  if line = "" then st
  else if pyStartsWith (pyLower line) "cenário" && pyContains line ":" then
    let st' :=
      if st.current_scenario ≠ [] then
        { st with scenarios := st.scenarios ++ [strJoinNL st.current_scenario] }
      else st
    { st' with current_scenario := [line], current_section := .scenario }
  else if startsWithAny (pyLower line) ["dado", "quando", "então", "e ", "mas "] then
    if st.current_section = .scenario then
      { st with current_scenario := st.current_scenario ++ [line] }
    else st
  else if pyContains (pyLower line) "insight" then
    { st with current_section := .insights }
  else if pyContains (pyLower line) "preocupa" || pyContains (pyLower line) "concern" then
    { st with current_section := .concerns }
  else if pyContains (pyLower line) "sugest" then
    { st with current_section := .suggestions }
  else if startsWithAny line ["- ", "* ", "• "] then
    let clean_line := pyStrip (strDrop 2 line)
    match st.current_section with
    | .insights => { st with insights := st.insights ++ [clean_line] }
    | .concerns => { st with concerns := st.concerns ++ [clean_line] }
    | .suggestions => { st with suggestions := st.suggestions ++ [clean_line] }
    | _ => st
  else st

/-- `_format_bdd_scenario` (agents.py 205-233): re-indent a scenario,
keeping title lines flush and prefixing every other non-empty line with
four spaces.  The step branch and the fallback branch of the source emit
the same text; both are kept. -/
def _format_bdd_scenario (scenario : String) : String :=
  let lines := pySplitLines scenario
  let formatted_lines := lines.foldl
    (fun acc rawLine =>
      let line := pyStrip rawLine
      if line = "" then acc
      else if pyContains (pyLower line) "cenário" && pyContains line ":" then
        acc ++ [line]
      else if startsWithAny (pyLower line) ["dado", "quando", "então", "e ", "mas "] then
        acc ++ ["    " ++ line]
      else
        acc ++ ["    " ++ line]) []
  strJoinNL formatted_lines

/-- `_parse_response` (agents.py 143-203).  Note the asymmetry of the
source: scenarios closed mid-loop are stored raw, the final open scenario
is stored already formatted (line 194), and then the whole list is
formatted once more (line 199). -/
def _parse_response (role : AgentRole) (content : String) : AgentOutput :=
  let lines := pySplitLines (pyStrip content)
  let st := lines.foldl parseLine
    { scenarios := [], insights := [], concerns := [], suggestions := [],
      current_section := .noSection, current_scenario := [] }
  let scenarios :=
    if st.current_scenario ≠ [] then
      st.scenarios ++ [_format_bdd_scenario (strJoinNL st.current_scenario)]
    else st.scenarios
  { agent_role := role,
    scenarios := scenarios.map _format_bdd_scenario,
    insights := st.insights,
    concerns := st.concerns,
    suggestions := st.suggestions }

/-- The outcome of the transport call in `analyze` (agents.py 61-71): a
raised exception with its message, or a completion whose `content` may be
`None`. -/
abbrev GenResult := Except String (Option String)

/-- `BaseAgent.analyze` (agents.py 41-84), with the transport call's
outcome passed in explicitly.  On success the (possibly `None`) content is
parsed; on any exception a degraded `AgentOutput` for the agent's own role
is returned instead of raising. -/
def analyze (role : AgentRole) (gen : GenResult) : AgentOutput :=
  match gen with
  | .ok (some content) => _parse_response role content
  | .ok none => _parse_response role "Erro: Resposta vazia da API"
  | .error e =>
    { agent_role := role,
      scenarios := [],
      insights := ["Erro na análise: " ++ e],
      concerns := ["Falha na geração de cenários"],
      suggestions := [] }

/-! ### Orchestration (`orchestrator.py` 107-157) -/

/-- The keys of `_initialize_agents` (orchestrator.py 36-43): every role
has a registered agent. -/
def registeredRoles : List AgentRole :=
  [AgentRole.PO, AgentRole.QA, AgentRole.PM, AgentRole.TECH_LEAD]

/-- `active_agents` (orchestrator.py 143-146): the enabled roles that have
a registered agent, in `enabled_agents` order. -/
def activeRoles (cfg : CollaborationConfig) : List AgentRole :=
  cfg.enabled_agents.filter (fun role => decide (role ∈ registeredRoles))

/-- The `AgentInput` built at orchestrator.py 130-140 for round
`round_num` (0-based): the same value is handed to every worker of the
round; `previous_scenarios` is a snapshot of `all_scenarios`. -/
def mkAgentInput (user_story : String) (cfg : CollaborationConfig)
    (round_num : Nat) (prev : List String) : AgentInput :=
  { user_story := user_story,
    round := round_num + 1,
    total_rounds := cfg.collaboration_rounds,
    max_scenarios_per_agent := cfg.max_scenarios_per_agent,
    include_negative := cfg.include_negative,
    include_edge_cases := cfg.include_edge_cases,
    previous_scenarios := prev }

/-- A worker behaviour: what `agent.analyze(agent_input)` returns for each
role and input.  The real worker is `fun role inp => analyze role (gen role inp)`
for some transport outcome `gen`. -/
abbrev Behavior := AgentRole → AgentInput → AgentOutput

/-- One round of `_orchestrate_collaboration` (orchestrator.py 126-156):
build the shared input from the current `all_scenarios`, run the active
agents, then fold their outputs into `(agent_outputs, all_scenarios)`
exactly as lines 152-155 do (last-write-wins per `output.agent_role`,
scenario texts capped by `max_scenarios_per_agent`). -/
def roundStep (behavior : Behavior) (user_story : String)
    (cfg : CollaborationConfig) (st : OutMap × List String)
    (round_num : Nat) : OutMap × List String :=
  let agent_input := mkAgentInput user_story cfg round_num st.2
  let outputs := (activeRoles cfg).map (fun role => behavior role agent_input)
  outputs.foldl
    (fun st out =>
      (dictInsert st.1 out.agent_role out,
       st.2 ++ out.scenarios.take cfg.max_scenarios_per_agent))
    st

/-- The `(agent_outputs, all_scenarios)` state after `n` rounds. -/
def orchestrateState (behavior : Behavior) (user_story : String)
    (cfg : CollaborationConfig) (n : Nat) : OutMap × List String :=
  (List.range n).foldl (roundStep behavior user_story cfg) ([], [])

/-- `_orchestrate_collaboration` (orchestrator.py 107-157): run
`config.collaboration_rounds` rounds and return `agent_outputs`. -/
def _orchestrate_collaboration (behavior : Behavior) (user_story : String)
    (cfg : CollaborationConfig) : OutMap :=
  (orchestrateState behavior user_story cfg cfg.collaboration_rounds).1

/-- The input each worker of (0-based) round `r` receives. -/
def roundInput (behavior : Behavior) (user_story : String)
    (cfg : CollaborationConfig) (r : Nat) : AgentInput :=
  mkAgentInput user_story cfg r (orchestrateState behavior user_story cfg r).2

/-- The capped scenario texts appended to `all_scenarios` by (0-based)
round `r` (orchestrator.py 154-155). -/
def roundScens (behavior : Behavior) (user_story : String)
    (cfg : CollaborationConfig) (r : Nat) : List String :=
  (activeRoles cfg).flatMap
    (fun role =>
      (behavior role (roundInput behavior user_story cfg r)).scenarios.take
        cfg.max_scenarios_per_agent)

/-! ### Feature extraction, gherkin, metrics, summary -/

/-- `_extract_feature_info` (orchestrator.py 159-181). -/
def _extract_feature_info (user_story : String) : String × String :=
  let lines := pySplitLines (pyStrip user_story)
  if 3 ≤ lines.length then
    ("Funcionalidade extraída da história", pyStrip user_story)
  else
    let l0 := lines.headD ""
    (if 50 < l0.toList.length then strTake 50 l0 ++ "..." else l0,
     pyStrip user_story)

/-- The lines a single scenario contributes to the gherkin output
(orchestrator.py 236-239): its non-blank lines, each prefixed with two
spaces. -/
def scenarioBlock (scenario : String) : List String :=
  ((pySplitLines scenario).filter (fun line => pyStrip line ≠ "")).map
    (fun line => "  " ++ line)

/-- The scenario section of the gherkin output (orchestrator.py 234-243):
each scenario's block, with an empty separator line after every scenario
except the last. -/
def gherkinBody : List String → List String
  | [] => []
  | [s] => scenarioBlock s
  | s :: rest => scenarioBlock s ++ [""] ++ gherkinBody rest

/-- `_generate_gherkin_content` (orchestrator.py 211-245). -/
def _generate_gherkin_content (feature_name feature_description : String)
    (scenarios : List String) : String :=
  strJoinNL
    (["Funcionalidade: " ++ feature_name, "  " ++ feature_description, ""]
      ++ gherkinBody scenarios)

/-- The numeric fields of `_calculate_quality_metrics`
(orchestrator.py 247-278); the wall-clock `total_time_seconds` entry is
not modelled. -/
structure QualityMetrics where
  total_scenarios : ℚ
  total_insights : ℚ
  total_concerns : ℚ
  agents_participated : ℚ
  scenarios_per_agent : ℚ
  collaboration_score : ℚ
  deriving DecidableEq, Repr

/-- `_calculate_quality_metrics` (orchestrator.py 247-278), with Python
floats modelled as rationals. -/
def _calculate_quality_metrics (agent_outputs : OutMap) : QualityMetrics :=
  let total_scenarios : ℚ :=
    ((agent_outputs.map (fun p => p.2.scenarios.length)).sum : ℕ)
  let total_insights : ℚ :=
    ((agent_outputs.map (fun p => p.2.insights.length)).sum : ℕ)
  let total_concerns : ℚ :=
    ((agent_outputs.map (fun p => p.2.concerns.length)).sum : ℕ)
  { total_scenarios := total_scenarios,
    total_insights := total_insights,
    total_concerns := total_concerns,
    agents_participated := (agent_outputs.length : ℚ),
    scenarios_per_agent :=
      if agent_outputs ≠ [] then total_scenarios / (agent_outputs.length : ℚ)
      else 0,
    collaboration_score :=
      min 100 ((total_scenarios * 10 + total_insights * 5) / 10) }

/-- `total_scenarios` of orchestrator.py 263-264: summed scenario counts
over the map's responses. -/
def totalScenarios (agent_outputs : OutMap) : ℕ :=
  (agent_outputs.map (fun p => p.2.scenarios.length)).sum

/-- `total_insights` of orchestrator.py 265-266: summed insight counts
over the map's responses. -/
def totalInsights (agent_outputs : OutMap) : ℕ :=
  (agent_outputs.map (fun p => p.2.insights.length)).sum

/-- The structured fields of `_create_collaboration_summary`
(orchestrator.py 280-307); the wall-clock timestamp entry is not
modelled.  The comprehensions iterate `agent_outputs.values()` in dict
(insertion) order. -/
structure CollaborationSummary where
  participating_agents : List String
  total_scenarios_generated : Nat
  key_insights : List String
  main_concerns : List String
  deriving DecidableEq, Repr

/-- `_create_collaboration_summary` (orchestrator.py 280-307). -/
def _create_collaboration_summary (agent_outputs : OutMap) :
    CollaborationSummary :=
  { participating_agents := agent_outputs.map (fun p => roleValue p.1),
    total_scenarios_generated :=
      (agent_outputs.map (fun p => p.2.scenarios.length)).sum,
    key_insights := agent_outputs.flatMap (fun p => p.2.insights.take 2),
    main_concerns := agent_outputs.flatMap (fun p => p.2.concerns.take 1) }

/-- `MultiAgentResponse` from `models.py` (the fields assembled at
orchestrator.py 88-97). -/
structure MultiAgentResponse where
  feature_name : String
  feature_description : String
  agent_outputs : List (String × AgentOutput)
  consolidated_scenarios : List String
  collaboration_summary : CollaborationSummary
  gherkin_content : String
  quality_metrics : QualityMetrics
  deriving DecidableEq, Repr

/-- `generate_bdd_scenarios` (orchestrator.py 45-105), with the workers'
behaviour passed in explicitly. -/
def generate_bdd_scenarios (behavior : Behavior) (user_story : String)
    (cfg : CollaborationConfig) : MultiAgentResponse :=
  let fi := _extract_feature_info user_story
  let agent_outputs := _orchestrate_collaboration behavior user_story cfg
  let consolidated_scenarios := _consolidate_scenarios agent_outputs
  let gherkin_content :=
    _generate_gherkin_content fi.1 fi.2 consolidated_scenarios
  let quality_metrics := _calculate_quality_metrics agent_outputs
  let collaboration_summary := _create_collaboration_summary agent_outputs
  { feature_name := fi.1,
    feature_description := fi.2,
    agent_outputs := agent_outputs.map (fun p => (roleValue p.1, p.2)),
    consolidated_scenarios := consolidated_scenarios,
    collaboration_summary := collaboration_summary,
    gherkin_content := gherkin_content,
    quality_metrics := quality_metrics }

/-! ### Definitions written from the specification's words, for comparison -/

/-- Modelled from the spec/claim wording "the scenario text lowercased with
all whitespace removed": unlike the source's `normKey` this removes every
whitespace character, not just spaces. -/
def wsKey (s : String) : String :=
  String.mk ((pyLower s).toList.filter (fun c => !(isPySpace c)))

/-- Modelled from the claim C8 wording: the first 2 insights of each
participating role's response, concatenated in the fixed role-priority
order. -/
def specKeyInsightsPriority (agent_outputs : OutMap) : List String :=
  priority_order.flatMap
    (fun role =>
      match dictGet agent_outputs role with
      | some out => out.insights.take 2
      | none => [])

/-- Modelled from the claim C8 wording: the first concern of each
participating role's response, concatenated in the fixed role-priority
order. -/
def specMainConcernsPriority (agent_outputs : OutMap) : List String :=
  priority_order.flatMap
    (fun role =>
      match dictGet agent_outputs role with
      | some out => out.concerns.take 1
      | none => [])

/-- Blocks of lines joined with a single blank separator line between
consecutive blocks and none after the last. -/
def sepByBlank : List (List String) → List String
  | [] => []
  | [b] => b
  | b :: rest => b ++ [""] ++ sepByBlank rest

/-- Modelled from the claim C10 wording: a first line `Funcionalidade: `
followed by the feature name, a second line of two spaces followed by the
description, a blank line, then each scenario's non-blank lines prefixed
with two spaces, with exactly one blank line between consecutive scenario
blocks and none after the last. -/
def specGherkinFormat (feature_name feature_description : String)
    (scenarios : List String) : String :=
  strJoinNL
    (["Funcionalidade: " ++ feature_name, "  " ++ feature_description, ""]
      ++ sepByBlank (scenarios.map scenarioBlock))

/-! ### Concrete fixtures for counterexamples and witnesses -/

/-- A per-role map whose scenarios differ only by a tab versus nothing:
identical once all whitespace is dropped, distinct under the source's
space-only normalization. -/
def c2Map : OutMap :=
  [(AgentRole.PO,
    { agent_role := AgentRole.PO, scenarios := ["a\tb", "ab"],
      insights := [], concerns := [], suggestions := [] })]

/-- Two lookup-equal maps with different physical order, for the
determinism witness of C2. -/
def c2WitMapA : OutMap :=
  [(AgentRole.PO,
    { agent_role := AgentRole.PO, scenarios := ["Cenário 1: X", "cenário 1:  x"],
      insights := [], concerns := [], suggestions := [] }),
   (AgentRole.QA,
    { agent_role := AgentRole.QA, scenarios := ["Cenário 1: Y"],
      insights := [], concerns := [], suggestions := [] })]

/-- The same map as `c2WitMapA` with the entries physically swapped. -/
def c2WitMapB : OutMap :=
  [(AgentRole.QA,
    { agent_role := AgentRole.QA, scenarios := ["Cenário 1: Y"],
      insights := [], concerns := [], suggestions := [] }),
   (AgentRole.PO,
    { agent_role := AgentRole.PO, scenarios := ["Cenário 1: X", "cenário 1:  x"],
      insights := [], concerns := [], suggestions := [] })]

/-- A worker behaviour whose output changes between round 1 and round 2. -/
def c3Behavior : Behavior := fun role inp =>
  if inp.round = 1 then
    { agent_role := role, scenarios := ["Cenário 1: A"],
      insights := [], concerns := [], suggestions := [] }
  else
    { agent_role := role, scenarios := ["Cenário 1: B"],
      insights := [], concerns := [], suggestions := [] }

/-- Two rounds, one active role: round 2's response overwrites round 1's. -/
def c3Cfg : CollaborationConfig :=
  { enabled_agents := [AgentRole.PO], collaboration_rounds := 2,
    max_scenarios_per_agent := 3, include_cross_validation := true,
    include_negative := false, include_edge_cases := false }

/-- An LLM answer containing two well-formed scenarios. -/
def c1Content : String :=
  "Cenário 1: A\nDado x\nCenário 2: B\nDado y"

/-- A worker whose transport call always succeeds with `c1Content`,
run through the real `analyze`/`_parse_response` path. -/
def c1Behavior : Behavior := fun role _ =>
  analyze role (Except.ok (some c1Content))

/-- One round, one active role, with a per-worker cap of 1. -/
def c1Cfg : CollaborationConfig :=
  { enabled_agents := [AgentRole.PO], collaboration_rounds := 1,
    max_scenarios_per_agent := 1, include_cross_validation := true,
    include_negative := false, include_edge_cases := false }

/-- Workers that return one role-specific insight and concern. -/
def c8Behavior : Behavior := fun role _ =>
  { agent_role := role, scenarios := [],
    insights := [roleValue role ++ " insight"],
    concerns := [roleValue role ++ " concern"], suggestions := [] }

/-- One round with the QA worker enabled before the PO worker, so the
map's insertion order differs from the fixed priority order. -/
def c8Cfg : CollaborationConfig :=
  { enabled_agents := [AgentRole.QA, AgentRole.PO], collaboration_rounds := 1,
    max_scenarios_per_agent := 3, include_cross_validation := true,
    include_negative := false, include_edge_cases := false }

/-- Workers that echo their role, for the C6 witness. -/
def c6Behavior : Behavior := fun role inp =>
  { agent_role := role,
    scenarios := [roleValue role ++ " round " ++ toString inp.round],
    insights := [], concerns := [], suggestions := [] }

/-- Two rounds with two active roles, for the C6 witness. -/
def c6Cfg : CollaborationConfig :=
  { enabled_agents := [AgentRole.PO, AgentRole.QA], collaboration_rounds := 2,
    max_scenarios_per_agent := 2, include_cross_validation := true,
    include_negative := false, include_edge_cases := false }

/-- A configuration with zero rounds, for the C7 witness. -/
def c7Cfg : CollaborationConfig :=
  { enabled_agents := [AgentRole.PO, AgentRole.QA], collaboration_rounds := 0,
    max_scenarios_per_agent := 3, include_cross_validation := true,
    include_negative := false, include_edge_cases := false }

/-- A trivial worker behaviour, for the C7 witness. -/
def c7Behavior : Behavior := fun role _ =>
  { agent_role := role, scenarios := ["Cenário 1: Z"],
    insights := [], concerns := [], suggestions := [] }

/-! ### Lemmas about deduplication -/

theorem normKey_notin_seen_of_mem_dedupe (l : List String) :
    ∀ (seen : List String) (t : String),
      t ∈ dedupeScenarios seen l → normKey t ∉ seen := by
  induction l with
  | nil => intro seen t ht; simp [dedupeScenarios] at ht
  | cons s rest ih =>
    intro seen t ht
    by_cases hs : normKey s ∈ seen
    · rw [dedupeScenarios, if_pos hs] at ht
      exact ih seen t ht
    · rw [dedupeScenarios, if_neg hs] at ht
      rcases List.mem_cons.mp ht with h | h
      · subst h; exact hs
      · intro hmem
        exact ih (normKey s :: seen) t h (List.mem_cons_of_mem _ hmem)

theorem dedupe_pairwise (l : List String) :
    ∀ seen : List String,
      (dedupeScenarios seen l).Pairwise (fun a b => normKey a ≠ normKey b) := by
  induction l with
  | nil => intro seen; simp [dedupeScenarios]
  | cons s rest ih =>
    intro seen
    by_cases hs : normKey s ∈ seen
    · rw [dedupeScenarios, if_pos hs]; exact ih seen
    · rw [dedupeScenarios, if_neg hs]
      refine List.Pairwise.cons ?_ (ih (normKey s :: seen))
      intro b hb hkey
      have := normKey_notin_seen_of_mem_dedupe rest (normKey s :: seen) b hb
      exact this (by rw [← hkey]; exact List.mem_cons_self _ _)

theorem dedupe_sublist (l : List String) :
    ∀ seen : List String, (dedupeScenarios seen l).Sublist l := by
  induction l with
  | nil => intro seen; simp [dedupeScenarios]
  | cons s rest ih =>
    intro seen
    by_cases hs : normKey s ∈ seen
    · rw [dedupeScenarios, if_pos hs]; exact (ih seen).cons s
    · rw [dedupeScenarios, if_neg hs]
      exact (ih (normKey s :: seen)).cons₂ s

theorem dedupe_complete (l : List String) :
    ∀ (seen : List String) (s : String), s ∈ l →
      normKey s ∈ seen
        ∨ ∃ t ∈ dedupeScenarios seen l, normKey t = normKey s := by
  induction l with
  | nil => intro seen s hs; simp at hs
  | cons a rest ih =>
    intro seen s hs
    by_cases ha : normKey a ∈ seen
    · rw [dedupeScenarios, if_pos ha]
      rcases List.mem_cons.mp hs with h | h
      · subst h; exact Or.inl ha
      · exact ih seen s h
    · rw [dedupeScenarios, if_neg ha]
      rcases List.mem_cons.mp hs with h | h
      · exact Or.inr ⟨a, List.mem_cons_self _ _, by rw [h]⟩
      · rcases ih (normKey a :: seen) s h with hin | ⟨t, ht, hkey⟩
        · rcases List.mem_cons.mp hin with hk | hk
          · exact Or.inr ⟨a, List.mem_cons_self _ _, hk.symm⟩
          · exact Or.inl hk
        · exact Or.inr ⟨t, List.mem_cons_of_mem _ ht, hkey⟩

theorem dedupe_of_pairwise (l : List String) :
    ∀ seen : List String,
      (∀ s ∈ l, normKey s ∉ seen) →
      l.Pairwise (fun a b => normKey a ≠ normKey b) →
      dedupeScenarios seen l = l := by
  induction l with
  | nil => intro seen _ _; rfl
  | cons s rest ih =>
    intro seen hseen hpw
    have hs : normKey s ∉ seen := hseen s (List.mem_cons_self _ _)
    rw [dedupeScenarios, if_neg hs]
    congr 1
    apply ih
    · intro t ht
      intro hmem
      rcases List.mem_cons.mp hmem with hk | hk
      · exact (List.pairwise_cons.mp hpw).1 t ht hk.symm
      · exact hseen t (List.mem_cons_of_mem _ ht) hk
    · exact (List.pairwise_cons.mp hpw).2

theorem flatMap_congr_of_eq {α β : Type} (l : List α) (f g : α → List β)
    (h : ∀ a ∈ l, f a = g a) : l.flatMap f = l.flatMap g := by
  induction l with
  | nil => rfl
  | cons a rest ih =>
    simp only [List.flatMap_cons]
    rw [h a (List.mem_cons_self _ _), ih (fun x hx => h x (List.mem_cons_of_mem _ hx))]

theorem every_role_in_priority (role : AgentRole) : role ∈ priority_order := by
  cases role <;> decide

/-! ### Lemmas about the orchestration state -/

theorem dictGet_dictInsert (m : OutMap) (k : AgentRole) (v : AgentOutput) :
    ∀ role, dictGet (dictInsert m k v) role
      = if k = role then some v else dictGet m role := by
  induction m with
  | nil => intro role; simp [dictGet, dictInsert]
  | cons p rest ih =>
    intro role
    obtain ⟨a, w⟩ := p
    by_cases hak : a = k
    · subst hak
      simp [dictInsert, dictGet]
      by_cases har : a = role <;> simp [har, dictGet]
    · simp only [dictInsert, if_neg hak, dictGet]
      by_cases har : a = role
      · subst har
        have : ¬ k = a := fun h => hak h.symm
        simp [this]
      · simp [har, ih role]

theorem pairFold_eq (cap : Nat) (outs : List AgentOutput) :
    ∀ st : OutMap × List String,
      outs.foldl
        (fun st out =>
          (dictInsert st.1 out.agent_role out, st.2 ++ out.scenarios.take cap))
        st
      = (outs.foldl (fun m out => dictInsert m out.agent_role out) st.1,
         st.2 ++ outs.flatMap (fun out => out.scenarios.take cap)) := by
  induction outs with
  | nil => intro st; simp
  | cons o rest ih =>
    intro st
    simp only [List.foldl_cons, List.flatMap_cons]
    rw [ih]
    simp [List.append_assoc]

theorem flatMap_map_comp {α β γ : Type} (l : List α) (f : α → β)
    (g : β → List γ) :
    (l.map f).flatMap g = l.flatMap (fun a => g (f a)) := by
  induction l with
  | nil => rfl
  | cons a rest ih => simp only [List.map_cons, List.flatMap_cons, ih]

theorem orchestrateState_succ (b : Behavior) (s : String)
    (cfg : CollaborationConfig) (n : Nat) :
    orchestrateState b s cfg (n + 1)
      = roundStep b s cfg (orchestrateState b s cfg n) n := by
  unfold orchestrateState
  rw [List.range_succ, List.foldl_append]
  rfl

theorem orchestrateState_snd (b : Behavior) (s : String)
    (cfg : CollaborationConfig) :
    ∀ n, (orchestrateState b s cfg n).2
      = (List.range n).flatMap (roundScens b s cfg) := by
  intro n
  induction n with
  | zero => rfl
  | succ n ih =>
    rw [orchestrateState_succ]
    show (roundStep b s cfg (orchestrateState b s cfg n) n).2 = _
    unfold roundStep
    rw [pairFold_eq, List.range_succ, List.flatMap_append]
    simp only [List.flatMap_cons, List.flatMap_nil, List.append_nil]
    congr 1
    rw [flatMap_map_comp]
    rfl

theorem foldl_insert_get (g : AgentRole → AgentOutput)
    (hg : ∀ ρ, (g ρ).agent_role = ρ) (roles : List AgentRole) :
    ∀ (m : OutMap) (role : AgentRole),
      dictGet ((roles.map g).foldl (fun m out => dictInsert m out.agent_role out) m)
          role
        = if role ∈ roles then some (g role) else dictGet m role := by
  induction roles with
  | nil => intro m role; simp
  | cons ρ rs ih =>
    intro m role
    simp only [List.map_cons, List.foldl_cons, hg ρ]
    rw [ih (dictInsert m ρ (g ρ)) role, dictGet_dictInsert]
    by_cases hrs : role ∈ rs
    · simp [hrs]
    · by_cases hρ : ρ = role
      · subst hρ
        simp [hrs]
      · have : role ≠ ρ := fun h => hρ h.symm
        simp [hrs, hρ, this]

theorem orchestrateState_fst_get (b : Behavior) (s : String)
    (cfg : CollaborationConfig)
    (hg : ∀ role inp, (b role inp).agent_role = role) :
    ∀ (n : Nat) (role : AgentRole),
      dictGet (orchestrateState b s cfg n).1 role
        = if 0 < n ∧ role ∈ activeRoles cfg then
            some (b role (roundInput b s cfg (n - 1)))
          else none := by
  intro n
  induction n with
  | zero => intro role; simp [orchestrateState, dictGet]
  | succ n ih =>
    intro role
    rw [orchestrateState_succ]
    show dictGet (roundStep b s cfg (orchestrateState b s cfg n) n).1 role = _
    unfold roundStep
    rw [pairFold_eq]
    show dictGet
        (((activeRoles cfg).map
            (fun role => b role (mkAgentInput s cfg n (orchestrateState b s cfg n).2))).foldl
          (fun m out => dictInsert m out.agent_role out)
          (orchestrateState b s cfg n).1) role = _
    rw [foldl_insert_get
      (fun role => b role (mkAgentInput s cfg n (orchestrateState b s cfg n).2))
      (fun ρ => hg ρ _) (activeRoles cfg) _ role]
    by_cases hact : role ∈ activeRoles cfg
    · simp only [hact, and_true, if_pos (Nat.succ_pos n), Nat.succ_pos, if_true]
      rfl
    · simp [hact, ih role]

theorem dictInsert_append_of_fresh (k : AgentRole) (v : AgentOutput) :
    ∀ m : OutMap, k ∉ m.map Prod.fst → dictInsert m k v = m ++ [(k, v)] := by
  intro m
  induction m with
  | nil => intro _; rfl
  | cons p rest ih =>
    intro hk
    obtain ⟨a, w⟩ := p
    simp only [List.map_cons, List.mem_cons] at hk
    push_neg at hk
    have : a ≠ k := fun h => hk.1 h.symm
    simp only [dictInsert, if_neg this, List.cons_append]
    rw [ih hk.2]

theorem foldl_insert_fresh (g : AgentRole → AgentOutput)
    (hg : ∀ ρ, (g ρ).agent_role = ρ) :
    ∀ (roles : List AgentRole) (m : OutMap),
      (∀ ρ ∈ roles, ρ ∉ m.map Prod.fst) → roles.Nodup →
      (roles.map g).foldl (fun m out => dictInsert m out.agent_role out) m
        = m ++ roles.map (fun ρ => (ρ, g ρ)) := by
  intro roles
  induction roles with
  | nil => intro m _ _; simp
  | cons ρ rs ih =>
    intro m hfresh hnd
    simp only [List.map_cons, List.foldl_cons, hg ρ]
    rw [dictInsert_append_of_fresh ρ (g ρ) m (hfresh ρ (List.mem_cons_self _ _))]
    have hfresh' : ∀ σ ∈ rs, σ ∉ (m ++ [(ρ, g ρ)]).map Prod.fst := by
      intro σ hσ hmem
      rw [List.map_append] at hmem
      rcases List.mem_append.mp hmem with h | h
      · exact hfresh σ (List.mem_cons_of_mem _ hσ) h
      · simp only [List.map_cons, List.map_nil, List.mem_singleton] at h
        exact (List.nodup_cons.mp hnd).1 (h ▸ hσ)
    rw [ih (m ++ [(ρ, g ρ)]) hfresh' (List.nodup_cons.mp hnd).2]
    simp

theorem foldl_insert_skip (g : AgentRole → AgentOutput)
    (hg : ∀ ρ, (g ρ).agent_role = ρ) (ρ : AgentRole) (w : AgentOutput) :
    ∀ (rs : List AgentRole) (m : OutMap), ρ ∉ rs →
      (rs.map g).foldl (fun m out => dictInsert m out.agent_role out) ((ρ, w) :: m)
        = (ρ, w) :: (rs.map g).foldl (fun m out => dictInsert m out.agent_role out) m := by
  intro rs
  induction rs with
  | nil => intro m _; rfl
  | cons σ ss ih =>
    intro m hρ
    simp only [List.mem_cons] at hρ
    push_neg at hρ
    have : ρ ≠ σ := hρ.1
    simp only [List.map_cons, List.foldl_cons, hg σ, dictInsert, if_neg this]
    exact ih (dictInsert m σ (g σ)) hρ.2

theorem foldl_insert_update (g f : AgentRole → AgentOutput)
    (hg : ∀ ρ, (g ρ).agent_role = ρ) :
    ∀ roles : List AgentRole, roles.Nodup →
      (roles.map g).foldl (fun m out => dictInsert m out.agent_role out)
          (roles.map (fun ρ => (ρ, f ρ)))
        = roles.map (fun ρ => (ρ, g ρ)) := by
  intro roles
  induction roles with
  | nil => intro _; rfl
  | cons ρ rs ih =>
    intro hnd
    simp only [List.map_cons, List.foldl_cons, hg ρ]
    have h2 : dictInsert ((ρ, f ρ) :: rs.map (fun σ => (σ, f σ))) ρ (g ρ)
        = (ρ, g ρ) :: rs.map (fun σ => (σ, f σ)) := by
      simp [dictInsert]
    rw [h2, foldl_insert_skip g hg ρ (g ρ) rs _ (List.nodup_cons.mp hnd).1]
    rw [ih (List.nodup_cons.mp hnd).2]

theorem orchestrateState_fst_list (b : Behavior) (s : String)
    (cfg : CollaborationConfig)
    (hg : ∀ role inp, (b role inp).agent_role = role)
    (hnd : (activeRoles cfg).Nodup) :
    ∀ n, 0 < n →
      (orchestrateState b s cfg n).1
        = (activeRoles cfg).map
            (fun ρ => (ρ, b ρ (roundInput b s cfg (n - 1)))) := by
  intro n
  induction n with
  | zero => intro h; exact absurd h (by norm_num)
  | succ n ih =>
    intro _
    rw [orchestrateState_succ]
    show (roundStep b s cfg (orchestrateState b s cfg n) n).1 = _
    unfold roundStep
    rw [pairFold_eq]
    show ((activeRoles cfg).map
        (fun role => b role (mkAgentInput s cfg n (orchestrateState b s cfg n).2))).foldl
          (fun m out => dictInsert m out.agent_role out)
          (orchestrateState b s cfg n).1 = _
    rcases Nat.eq_zero_or_pos n with h0 | hpos
    · subst h0
      have h2 : (orchestrateState b s cfg 0).1 = ([] : OutMap) := rfl
      rw [h2, foldl_insert_fresh
        (fun role => b role (mkAgentInput s cfg 0 (orchestrateState b s cfg 0).2))
        (fun ρ => hg ρ _) (activeRoles cfg) []
        (by intro ρ _ hmem; simp at hmem) hnd]
      simp only [List.nil_append]
      rfl
    · rw [ih hpos, foldl_insert_update
        (fun role => b role (mkAgentInput s cfg n (orchestrateState b s cfg n).2))
        (fun ρ => b ρ (roundInput b s cfg (n - 1))) (fun ρ => hg ρ _)
        (activeRoles cfg) hnd]
      rfl

/-- C2 (amended): consolidation visits roles in the fixed priority order
PO, QA, PM, Tech Lead and each role's scenarios in original order
(the output is a sublist of that stream), emits a scenario iff its
normalized key — the text lowercased with all *space characters* removed —
was not seen before (so no two output entries share a normalized key, and
every input scenario has a representative in the output), and the result
depends only on the map's contents, never on its physical iteration
order. -/
theorem claim_C2_consolidation (m m' : OutMap)
    (h : ∀ role, dictGet m role = dictGet m' role) :
    (_consolidate_scenarios m).Pairwise (fun a b => normKey a ≠ normKey b)
    ∧ (_consolidate_scenarios m).Sublist (consolidationStream m)
    ∧ (∀ s ∈ consolidationStream m,
        ∃ t ∈ _consolidate_scenarios m, normKey t = normKey s)
    ∧ _consolidate_scenarios m = _consolidate_scenarios m' := by
  refine ⟨dedupe_pairwise _ _, dedupe_sublist _ _, ?_, ?_⟩
  · intro s hs
    rcases dedupe_complete (consolidationStream m) [] s hs with hin | hex
    · simp at hin
    · exact hex
  · unfold _consolidate_scenarios
    congr 1
    apply flatMap_congr_of_eq
    intro role _
    unfold roleScenarios
    rw [h role]

/-- C2 witness: the amended consolidation theorem at a concrete pair of
lookup-equal maps with different physical entry order, with the coverage
conjunct instantiated at the duplicate scenario text. -/
theorem claim_C2_witness :
    (_consolidate_scenarios c2WitMapA).Pairwise (fun a b => normKey a ≠ normKey b)
    ∧ (_consolidate_scenarios c2WitMapA).Sublist (consolidationStream c2WitMapA)
    ∧ (∃ t ∈ _consolidate_scenarios c2WitMapA, normKey t = normKey "cenário 1:  x")
    ∧ _consolidate_scenarios c2WitMapA = _consolidate_scenarios c2WitMapB := by
  have h := claim_C2_consolidation c2WitMapA c2WitMapB
    (fun role => by cases role <;> rfl)
  exact ⟨h.1, h.2.1, h.2.2.1 "cenário 1:  x" (by decide), h.2.2.2⟩

/-- C2 counterexample: the claim's normalization ("all whitespace
removed") is not the code's.  `"a\tb"` and `"ab"` are identical once all
whitespace is dropped, yet consolidation keeps both, so the consolidated
list does contain two case/whitespace-insensitively identical entries. -/
theorem claim_C2_counterexample :
    _consolidate_scenarios c2Map = ["a\tb", "ab"]
    ∧ wsKey "a\tb" = wsKey "ab"
    ∧ ("a\tb" : String) ≠ "ab" := by
  refine ⟨by decide, by decide, by decide⟩

/-- C9: consolidation is idempotent — running the deduplication pass on
its own output removes and reorders nothing. -/
theorem claim_C9_idempotent (m : OutMap) :
    dedupeScenarios [] (_consolidate_scenarios m) = _consolidate_scenarios m := by
  apply dedupe_of_pairwise
  · intro s _ hmem
    simp at hmem
  · exact dedupe_pairwise _ _

/-- C3 (amended): the consolidated list is the deduplicated merge of the
*retained* per-role responses (last write wins): every scenario of a
response stored in the final map is either present in the consolidated
list or shares its normalized key with an entry of it.  Scenarios from
earlier-round responses that were overwritten may be absent entirely. -/
theorem claim_C3_consolidation_covers (behavior : Behavior)
    (user_story : String) (cfg : CollaborationConfig) (role : AgentRole)
    (out : AgentOutput) (s : String)
    (hget : dictGet (_orchestrate_collaboration behavior user_story cfg) role
      = some out)
    (hs : s ∈ out.scenarios) :
    s ∈ _consolidate_scenarios (_orchestrate_collaboration behavior user_story cfg)
    ∨ ∃ t ∈ _consolidate_scenarios (_orchestrate_collaboration behavior user_story cfg),
        normKey t = normKey s := by
  set m := _orchestrate_collaboration behavior user_story cfg with hm
  have hstream : s ∈ consolidationStream m := by
    apply List.mem_flatMap.mpr
    refine ⟨role, every_role_in_priority role, ?_⟩
    unfold roleScenarios
    rw [hget]
    exact hs
  rcases dedupe_complete (consolidationStream m) [] s hstream with hin | hex
  · simp at hin
  · exact Or.inr hex

/-- C3 witness: the amended coverage theorem applied to the concrete
two-round run used for the counterexample, at the retained round-2
scenario. -/
theorem claim_C3_witness :
    "Cenário 1: B"
      ∈ _consolidate_scenarios (_orchestrate_collaboration c3Behavior "s" c3Cfg)
    ∨ ∃ t ∈ _consolidate_scenarios (_orchestrate_collaboration c3Behavior "s" c3Cfg),
        normKey t = normKey "Cenário 1: B" :=
  claim_C3_consolidation_covers c3Behavior "s" c3Cfg AgentRole.PO
    { agent_role := AgentRole.PO, scenarios := ["Cenário 1: B"],
      insights := [], concerns := [], suggestions := [] }
    "Cenário 1: B" (by decide) (by decide)

/-- C3 counterexample: in a two-round run whose single worker answers
`"Cenário 1: A"` in round 1 and `"Cenário 1: B"` in round 2, the
consolidated list is `["Cenário 1: B"]` — the round-1 scenario is neither
present nor a normalized duplicate of any entry, refuting the claim that
consolidation merges the union of all rounds' outputs. -/
theorem claim_C3_counterexample :
    (c3Behavior AgentRole.PO (roundInput c3Behavior "s" c3Cfg 0)).scenarios
      = ["Cenário 1: A"]
    ∧ _consolidate_scenarios (_orchestrate_collaboration c3Behavior "s" c3Cfg)
      = ["Cenário 1: B"]
    ∧ ¬ ("Cenário 1: A"
          ∈ _consolidate_scenarios (_orchestrate_collaboration c3Behavior "s" c3Cfg)
        ∨ ∃ t ∈ _consolidate_scenarios (_orchestrate_collaboration c3Behavior "s" c3Cfg),
            normKey t = normKey "Cenário 1: A") := by
  refine ⟨by decide, by decide, by decide⟩

/-- C4: a worker whose transport call raises does not propagate the
exception: `analyze` returns a degraded response for the worker's own
role with no scenarios, at least one synthetic insight, at least one
synthetic concern, and no suggestions. -/
theorem claim_C4_graceful_degradation (role : AgentRole) (e : String) :
    (analyze role (Except.error e)).agent_role = role
    ∧ (analyze role (Except.error e)).scenarios = []
    ∧ 1 ≤ (analyze role (Except.error e)).insights.length
    ∧ 1 ≤ (analyze role (Except.error e)).concerns.length
    ∧ (analyze role (Except.error e)).suggestions = [] := by
  refine ⟨rfl, rfl, ?_, ?_, rfl⟩ <;> simp [analyze]

/-- C5: the collaboration score is `min 100 ((S*10 + I*5)/10)` for the
summed scenario and insight counts, and always lies in `[0, 100]`. -/
theorem claim_C5_collaboration_score (m : OutMap) :
    (_calculate_quality_metrics m).collaboration_score
      = min 100
          (((totalScenarios m : ℚ) * 10 + (totalInsights m : ℚ) * 5) / 10)
    ∧ 0 ≤ (_calculate_quality_metrics m).collaboration_score
    ∧ (_calculate_quality_metrics m).collaboration_score ≤ 100 := by
  refine ⟨rfl, ?_, ?_⟩
  · apply le_min
    · norm_num
    · positivity
  · exact min_le_left _ _

/-- C6: after the last of `R ≥ 1` rounds, the per-role map assigns each
active role exactly that role's round-`R` response (last write wins), and
the `previous_scenarios` handed to every worker of (1-based) round `r+1`
is exactly the concatenation of the capped scenario texts of rounds `1..r`
— the same value for every worker of the round, containing no same-round
output. -/
theorem claim_C6_rounds_and_visibility (b : Behavior) (s : String)
    (cfg : CollaborationConfig)
    (hg : ∀ role inp, (b role inp).agent_role = role)
    (hR : 1 ≤ cfg.collaboration_rounds) :
    (∀ role ∈ activeRoles cfg,
      dictGet (_orchestrate_collaboration b s cfg) role
        = some (b role (roundInput b s cfg (cfg.collaboration_rounds - 1))))
    ∧ ∀ r, (roundInput b s cfg r).previous_scenarios
        = (List.range r).flatMap (roundScens b s cfg) := by
  constructor
  · intro role hrole
    unfold _orchestrate_collaboration
    rw [orchestrateState_fst_get b s cfg hg cfg.collaboration_rounds role,
      if_pos ⟨hR, hrole⟩]
  · intro r
    show (orchestrateState b s cfg r).2 = _
    exact orchestrateState_snd b s cfg r

/-- C6 witness: the round-state theorem at a concrete two-round,
two-role run, instantiated at role PO and round index 1. -/
theorem claim_C6_witness :
    dictGet (_orchestrate_collaboration c6Behavior "s" c6Cfg) AgentRole.PO
      = some (c6Behavior AgentRole.PO (roundInput c6Behavior "s" c6Cfg 1))
    ∧ (roundInput c6Behavior "s" c6Cfg 1).previous_scenarios
      = (List.range 1).flatMap (roundScens c6Behavior "s" c6Cfg) :=
  ⟨(claim_C6_rounds_and_visibility c6Behavior "s" c6Cfg (fun _ _ => rfl)
      (by decide)).1 AgentRole.PO (by decide),
   (claim_C6_rounds_and_visibility c6Behavior "s" c6Cfg (fun _ _ => rfl)
      (by decide)).2 1⟩

theorem foldl_fixed {α β : Type} (f : α → β → α) (hf : ∀ a x, f a x = a) :
    ∀ (l : List β) (a : α), l.foldl f a = a := by
  intro l
  induction l with
  | nil => intro a; rfl
  | cons x xs ih => intro a; rw [List.foldl_cons, hf a x]; exact ih a

/-- C7: with zero rounds or zero enabled roles the run still returns a
final response, with zero participants, an empty consolidated scenario
list and a collaboration score of 0. -/
theorem claim_C7_degenerate_run (b : Behavior) (s : String)
    (cfg : CollaborationConfig)
    (h : cfg.collaboration_rounds = 0 ∨ cfg.enabled_agents = []) :
    (generate_bdd_scenarios b s cfg).quality_metrics.agents_participated = 0
    ∧ (generate_bdd_scenarios b s cfg).consolidated_scenarios = []
    ∧ (generate_bdd_scenarios b s cfg).quality_metrics.collaboration_score = 0 := by
  have hmap : _orchestrate_collaboration b s cfg = [] := by
    rcases h with h0 | hE
    · unfold _orchestrate_collaboration orchestrateState
      rw [h0]
      rfl
    · have hact : activeRoles cfg = [] := by simp [activeRoles, hE]
      have hstep : ∀ st n, roundStep b s cfg st n = st := by
        intro st n
        unfold roundStep
        rw [hact]
        rfl
      unfold _orchestrate_collaboration orchestrateState
      rw [foldl_fixed _ hstep]
  refine ⟨?_, ?_, ?_⟩
  · show (_calculate_quality_metrics
      (_orchestrate_collaboration b s cfg)).agents_participated = 0
    rw [hmap]
    norm_num [_calculate_quality_metrics]
  · show _consolidate_scenarios (_orchestrate_collaboration b s cfg) = []
    rw [hmap]
    rfl
  · show (_calculate_quality_metrics
      (_orchestrate_collaboration b s cfg)).collaboration_score = 0
    rw [hmap]
    norm_num [_calculate_quality_metrics]

/-- C7 witness: the degenerate-run theorem at a concrete zero-round
configuration. -/
theorem claim_C7_witness :
    (generate_bdd_scenarios c7Behavior "s" c7Cfg).quality_metrics.agents_participated = 0
    ∧ (generate_bdd_scenarios c7Behavior "s" c7Cfg).consolidated_scenarios = []
    ∧ (generate_bdd_scenarios c7Behavior "s" c7Cfg).quality_metrics.collaboration_score = 0 :=
  claim_C7_degenerate_run c7Behavior "s" c7Cfg (Or.inl rfl)

/-- C1 (amended): the per-worker output cap does not truncate the stored
responses; it is applied only to each worker's per-round contribution to
the accumulated prior-scenario list: each round appends exactly the active
workers' scenario texts truncated to the cap, so every per-worker
per-round contribution has length at most `max_scenarios_per_agent`. -/
theorem claim_C1_cap_scope (b : Behavior) (s : String)
    (cfg : CollaborationConfig) (r : Nat) :
    (orchestrateState b s cfg (r + 1)).2
      = (orchestrateState b s cfg r).2 ++ roundScens b s cfg r
    ∧ ∀ role,
        ((b role (roundInput b s cfg r)).scenarios.take
            cfg.max_scenarios_per_agent).length
          ≤ cfg.max_scenarios_per_agent := by
  constructor
  · rw [orchestrateState_snd, orchestrateState_snd, List.range_succ,
      List.flatMap_append]
    simp
  · intro role
    rw [List.length_take]
    exact min_le_left _ _

/-- C1 counterexample: with a cap of 1 and a transport answer holding two
scenarios, the worker's `analyze` (success path) returns both scenarios
and the orchestrator stores the response untruncated: the stored response
has 2 scenarios, exceeding `max_scenarios_per_agent = 1`, and differs from
`min(cap, generated) = 1`. -/
theorem claim_C1_counterexample :
    dictGet (_orchestrate_collaboration c1Behavior "s" c1Cfg) AgentRole.PO
      = some (analyze AgentRole.PO (Except.ok (some c1Content)))
    ∧ (analyze AgentRole.PO (Except.ok (some c1Content))).scenarios.length = 2
    ∧ c1Cfg.max_scenarios_per_agent = 1
    ∧ ¬ ((analyze AgentRole.PO (Except.ok (some c1Content))).scenarios.length
          ≤ c1Cfg.max_scenarios_per_agent) := by
  refine ⟨by decide, by decide, rfl, by decide⟩

/-- C8 (amended): the summary's `key_insights` (resp. `main_concerns`)
is the concatenation of the first 2 insights (resp. first 1 concern) per
participating role in the per-role map's insertion order — for a run with
distinct enabled roles, the `enabled_agents` order — not the fixed
consolidation priority order. -/
theorem claim_C8_summary_insertion_order (b : Behavior) (s : String)
    (cfg : CollaborationConfig)
    (hg : ∀ role inp, (b role inp).agent_role = role)
    (hnd : (activeRoles cfg).Nodup)
    (hR : 1 ≤ cfg.collaboration_rounds) :
    (_create_collaboration_summary (_orchestrate_collaboration b s cfg)).key_insights
      = (activeRoles cfg).flatMap
          (fun ρ =>
            (b ρ (roundInput b s cfg (cfg.collaboration_rounds - 1))).insights.take 2)
    ∧ (_create_collaboration_summary (_orchestrate_collaboration b s cfg)).main_concerns
      = (activeRoles cfg).flatMap
          (fun ρ =>
            (b ρ (roundInput b s cfg (cfg.collaboration_rounds - 1))).concerns.take 1) := by
  have hlist := orchestrateState_fst_list b s cfg hg hnd
    cfg.collaboration_rounds hR
  constructor
  · show (_orchestrate_collaboration b s cfg).flatMap
        (fun p => p.2.insights.take 2) = _
    unfold _orchestrate_collaboration
    rw [hlist, flatMap_map_comp]
  · show (_orchestrate_collaboration b s cfg).flatMap
        (fun p => p.2.concerns.take 1) = _
    unfold _orchestrate_collaboration
    rw [hlist, flatMap_map_comp]

/-- C8 witness: the insertion-order summary theorem at a concrete
one-round run enabling QA before PO. -/
theorem claim_C8_witness :
    (_create_collaboration_summary
        (_orchestrate_collaboration c8Behavior "s" c8Cfg)).key_insights
      = (activeRoles c8Cfg).flatMap
          (fun ρ =>
            (c8Behavior ρ
              (roundInput c8Behavior "s" c8Cfg
                (c8Cfg.collaboration_rounds - 1))).insights.take 2)
    ∧ (_create_collaboration_summary
        (_orchestrate_collaboration c8Behavior "s" c8Cfg)).main_concerns
      = (activeRoles c8Cfg).flatMap
          (fun ρ =>
            (c8Behavior ρ
              (roundInput c8Behavior "s" c8Cfg
                (c8Cfg.collaboration_rounds - 1))).concerns.take 1) :=
  claim_C8_summary_insertion_order c8Behavior "s" c8Cfg (fun _ _ => rfl)
    (by decide) (by decide)

/-- C8 counterexample: with QA enabled before PO, the summary lists QA's
insight first (map insertion order), while the claim's fixed
role-priority order would list PO's first — the two disagree. -/
theorem claim_C8_counterexample :
    (_create_collaboration_summary
        (_orchestrate_collaboration c8Behavior "s" c8Cfg)).key_insights
      = ["quality_assurance insight", "product_owner insight"]
    ∧ specKeyInsightsPriority (_orchestrate_collaboration c8Behavior "s" c8Cfg)
      = ["product_owner insight", "quality_assurance insight"]
    ∧ (_create_collaboration_summary
        (_orchestrate_collaboration c8Behavior "s" c8Cfg)).key_insights
      ≠ specKeyInsightsPriority (_orchestrate_collaboration c8Behavior "s" c8Cfg) := by
  refine ⟨by decide, by decide, by decide⟩

theorem gherkinBody_eq_sepByBlank (scens : List String) :
    gherkinBody scens = sepByBlank (scens.map scenarioBlock) := by
  induction scens with
  | nil => rfl
  | cons s rest ih =>
    cases rest with
    | nil => rfl
    | cons r rs =>
      show scenarioBlock s ++ [""] ++ gherkinBody (r :: rs)
        = scenarioBlock s ++ [""] ++ sepByBlank ((r :: rs).map scenarioBlock)
      rw [ih]

/-- C10: the assembled gherkin content is exactly the claimed format: a
`Funcionalidade: ` line with the feature name, a line of two spaces plus
the description, a blank line, then each scenario's non-blank lines
prefixed with two spaces, with exactly one blank separator line between
consecutive scenario blocks and none after the last; and the final
response's `gherkin_content` is that format applied to the extracted
feature info and the consolidated scenarios. -/
theorem claim_C10_gherkin_format (feature_name feature_description : String)
    (scenarios : List String) (b : Behavior) (s : String)
    (cfg : CollaborationConfig) :
    _generate_gherkin_content feature_name feature_description scenarios
      = specGherkinFormat feature_name feature_description scenarios
    ∧ (generate_bdd_scenarios b s cfg).gherkin_content
      = specGherkinFormat (_extract_feature_info s).1 (_extract_feature_info s).2
          ((generate_bdd_scenarios b s cfg).consolidated_scenarios) := by
  constructor
  · unfold _generate_gherkin_content specGherkinFormat
    rw [gherkinBody_eq_sepByBlank]
  · show _generate_gherkin_content (_extract_feature_info s).1
        (_extract_feature_info s).2
        (_consolidate_scenarios (_orchestrate_collaboration b s cfg)) = _
    unfold _generate_gherkin_content specGherkinFormat
    rw [gherkinBody_eq_sepByBlank]
    rfl

end BddAgent
